import Mathlib

/-!
Shallow embedding of the document-upload core of the `superpowered-ts-sdk`
client library (`src/documents.ts`, `src/client.ts`).

Bytes are modelled as `List Nat` (each entry a byte value), machine words as
`Nat` reduced modulo `2 ^ 32` where the source's 32-bit arithmetic overflows.
The two HTTP channels the upload pipeline uses — the authenticated
`axiosInstance.post` and the bare `axios.put` — are modelled as an oracle
environment `Env`, and `uploadDocument` returns the trace of remote calls it
issued together with its result (`Except` models JS throw/return).
-/

/-- Whether `sub` is a prefix of the second list (JS `String.startsWith` on
char lists); building block for the substring check. -/
def leadsWith : List Char → List Char → Bool
  | [], _ => true
  | _ :: _, [] => false
  | a :: as, b :: bs => a == b && leadsWith as bs

/-- Whether `sub` occurs contiguously inside `l`. -/
def occursWithin (sub : List Char) : List Char → Bool
  | [] => sub.isEmpty
  | c :: t => leadsWith sub (c :: t) || occursWithin sub t

/-- JS `String.prototype.includes`: substring test, used by the conflict
classifier in `uploadDocument`'s catch block. -/
def strIncludes (s sub : String) : Bool :=
  occursWithin sub.toList s.toList

/-! ## MD5 (as used by `crypto.createHash("md5")`) -/

/-- The 64 MD5 round constants `K[i] = floor(2^32 * |sin(i+1)|)`. -/
def md5K : List Nat :=
  [0xd76aa478, 0xe8c7b756, 0x242070db, 0xc1bdceee,
   0xf57c0faf, 0x4787c62a, 0xa8304613, 0xfd469501,
   0x698098d8, 0x8b44f7af, 0xffff5bb1, 0x895cd7be,
   0x6b901122, 0xfd987193, 0xa679438e, 0x49b40821,
   0xf61e2562, 0xc040b340, 0x265e5a51, 0xe9b6c7aa,
   0xd62f105d, 0x02441453, 0xd8a1e681, 0xe7d3fbc8,
   0x21e1cde6, 0xc33707d6, 0xf4d50d87, 0x455a14ed,
   0xa9e3e905, 0xfcefa3f8, 0x676f02d9, 0x8d2a4c8a,
   0xfffa3942, 0x8771f681, 0x6d9d6122, 0xfde5380c,
   0xa4beea44, 0x4bdecfa9, 0xf6bb4b60, 0xbebfbc70,
   0x289b7ec6, 0xeaa127fa, 0xd4ef3085, 0x04881d05,
   0xd9d4d039, 0xe6db99e5, 0x1fa27cf8, 0xc4ac5665,
   0xf4292244, 0x432aff97, 0xab9423a7, 0xfc93a039,
   0x655b59c3, 0x8f0ccc92, 0xffeff47d, 0x85845dd1,
   0x6fa87e4f, 0xfe2ce6e0, 0xa3014314, 0x4e0811a1,
   0xf7537e82, 0xbd3af235, 0x2ad7d2bb, 0xeb86d391]

/-- The 64 MD5 per-round left-rotation amounts. -/
def md5S : List Nat :=
  [7, 12, 17, 22, 7, 12, 17, 22, 7, 12, 17, 22, 7, 12, 17, 22,
   5, 9, 14, 20, 5, 9, 14, 20, 5, 9, 14, 20, 5, 9, 14, 20,
   4, 11, 16, 23, 4, 11, 16, 23, 4, 11, 16, 23, 4, 11, 16, 23,
   6, 10, 15, 21, 6, 10, 15, 21, 6, 10, 15, 21, 6, 10, 15, 21]

/-- 32-bit complement of a word below `2 ^ 32`. -/
def compl32 (x : Nat) : Nat := 0xffffffff ^^^ x

/-- 32-bit left rotation. -/
def rotl32 (x n : Nat) : Nat :=
  ((x <<< n) % 2 ^ 32) ||| (x >>> (32 - n))

/-- MD5 padding: append `0x80`, zero bytes up to 56 mod 64, then the
little-endian 64-bit bit length. -/
def md5Pad (msg : List Nat) : List Nat :=
  let len := msg.length
  let zeros := (119 - len % 64) % 64
  let bitLen := (len * 8) % 2 ^ 64
  msg ++ 0x80 :: (List.replicate zeros 0 ++
    (List.range 8).map (fun i => (bitLen >>> (8 * i)) % 256))

/-- Split a list into 64-byte blocks; `fuel` bounds the recursion depth and
is structurally consumed so the definition reduces in the kernel. -/
def md5BlocksAux : Nat → List Nat → List (List Nat)
  | 0, _ => []
  | _ + 1, [] => []
  | fuel + 1, a :: l => (a :: l).take 64 :: md5BlocksAux fuel ((a :: l).drop 64)

/-- Split a padded message into 64-byte blocks. -/
def md5Blocks (l : List Nat) : List (List Nat) :=
  md5BlocksAux l.length l

/-- Decode a 64-byte block into 16 little-endian 32-bit words. -/
def md5Words (block : List Nat) : List Nat :=
  (List.range 16).map (fun j =>
    block.getD (4 * j) 0 + 256 * block.getD (4 * j + 1) 0 +
      65536 * block.getD (4 * j + 2) 0 + 16777216 * block.getD (4 * j + 3) 0)

/-- One MD5 round `i` (0 ≤ i < 64) acting on the state `(a, b, c, d)`. -/
def md5Round (M : List Nat) (st : Nat × Nat × Nat × Nat) (i : Nat) :
    Nat × Nat × Nat × Nat :=
  let (a, b, c, d) := st
  let f :=
    if i < 16 then (b &&& c) ||| (compl32 b &&& d)
    else if i < 32 then (d &&& b) ||| (compl32 d &&& c)
    else if i < 48 then b ^^^ c ^^^ d
    else c ^^^ (b ||| compl32 d)
  let g :=
    if i < 16 then i
    else if i < 32 then (5 * i + 1) % 16
    else if i < 48 then (3 * i + 5) % 16
    else (7 * i) % 16
  let tmp := (f + a + md5K.getD i 0 + M.getD g 0) % 2 ^ 32
  (d, (b + rotl32 tmp (md5S.getD i 0)) % 2 ^ 32, b, c)

/-- Process one 64-byte block: 64 rounds, then add the previous state. -/
def md5Block (st : Nat × Nat × Nat × Nat) (block : List Nat) :
    Nat × Nat × Nat × Nat :=
  let M := md5Words block
  let r := (List.range 64).foldl (md5Round M) st
  ((st.1 + r.1) % 2 ^ 32, (st.2.1 + r.2.1) % 2 ^ 32,
   (st.2.2.1 + r.2.2.1) % 2 ^ 32, (st.2.2.2 + r.2.2.2) % 2 ^ 32)

/-- Serialize a 32-bit word as 4 little-endian bytes. -/
def wordLEBytes (x : Nat) : List Nat :=
  [x % 256, (x >>> 8) % 256, (x >>> 16) % 256, (x >>> 24) % 256]

/-- The 16-byte MD5 digest of a byte sequence. -/
def md5Bytes (msg : List Nat) : List Nat :=
  let st := (md5Blocks (md5Pad msg)).foldl md5Block
    (0x67452301, 0xefcdab89, 0x98badcfe, 0x10325476)
  wordLEBytes st.1 ++ wordLEBytes st.2.1 ++ wordLEBytes st.2.2.1 ++
    wordLEBytes st.2.2.2

/-! ## Base64 (as used by `.digest("base64")` and `Buffer.toString("base64")`) -/

/-- The base64 digit for a 6-bit value. -/
def b64Digit (n : Nat) : Char :=
  "ABCDEFGHIJKLMNOPQRSTUVWXYZabcdefghijklmnopqrstuvwxyz0123456789+/".toList.getD n 'A'

/-- Base64-encode a byte list, with `=` padding. -/
def b64Chars : List Nat → List Char
  | [] => []
  | [b0] => [b64Digit (b0 >>> 2), b64Digit ((b0 % 4) <<< 4), '=', '=']
  | [b0, b1] =>
    [b64Digit (b0 >>> 2), b64Digit (((b0 % 4) <<< 4) ||| (b1 >>> 4)),
     b64Digit ((b1 % 16) <<< 2), '=']
  | b0 :: b1 :: b2 :: rest =>
    b64Digit (b0 >>> 2) :: b64Digit (((b0 % 4) <<< 4) ||| (b1 >>> 4)) ::
      b64Digit (((b1 % 16) <<< 2) ||| (b2 >>> 6)) :: b64Digit (b2 % 64) ::
      b64Chars rest

/-- Base64 encoding of a byte list as a string. -/
def base64Encode (bytes : List Nat) : String :=
  String.mk (b64Chars bytes)

/-- `crypto.createHash("md5").update(buf).digest("base64")`: the base64
encoding of the MD5 digest of the buffer (`documents.ts` lines 164–167). -/
def md5Base64 (bytes : List Nat) : String :=
  base64Encode (md5Bytes bytes)

/-! ## Data model of the upload pipeline (`documents.ts`, `client.ts`) -/

/-- The HTTP method tag of a signed-URL request: the source restricts it to
the union type `"GET" | "PUT"`. -/
inductive SignedMethod where
  | GET
  | PUT
deriving DecidableEq, Repr

/-- Body of `POST /knowledge_bases/{id}/documents/request_signed_file_url`
(`documents.ts` lines 111–130); optional fields are `Option`. -/
structure SignedUrlData where
  filename : String
  encoded_md5 : String
  method : SignedMethod
  link_to_source : Option String
  supp_id : Option String
  description : Option String
  is_update : Option Bool
  chunk_header : Option String
  auto_context : Option Bool
deriving DecidableEq, Repr

/-- The negotiator's response: `{ temporary_url }`. -/
structure SignedUrlResponse where
  temporary_url : String
deriving DecidableEq, Repr

/-- An HTTP response as seen by the direct `axios.put` call: only the status
code is consumed (`res.status === 200`). -/
structure PutResponse where
  status : Nat
deriving DecidableEq, Repr

/-- The error-response body shape consumed by the conflict classifier:
`{ error?: string, existing_document_id?: string }`; a body without those
fields (or a non-object body) is modelled by `none` entries. -/
structure ErrorBody where
  error : Option String
  existing_document_id : Option String
deriving DecidableEq, Repr

/-- `error.response` on an axios error: HTTP status plus parsed body. -/
structure ErrResponse where
  status : Nat
  data : ErrorBody
deriving DecidableEq, Repr

/-- A thrown JS error: an axios error (whose `response` is absent on network
failures), or any other thrown value (`axios.isAxiosError` is false). -/
inductive UploadError where
  | axiosErr (response : Option ErrResponse)
  | otherErr (msg : String)
deriving DecidableEq, Repr

/-- The direct transfer request built by `uploadDocument`:
`axios.put(signedUrl, fileBuffer, { headers: ... })`. -/
structure PutRequest where
  method : String
  url : String
  body : List Nat
  headers : List (String × String)
deriving DecidableEq, Repr

/-- Result record of `uploadDocument`:
`{ success: boolean, existingDocumentId?: string, errorMessage?: string }`. -/
structure UploadResult where
  success : Bool
  existingDocumentId : Option String
  errorMessage : Option String
deriving DecidableEq, Repr

/-- Optional named parameters of `uploadDocument`. -/
structure UploadOptions where
  linkToSource : Option String := none
  suppId : Option String := none
  description : Option String := none
  isUpdate : Option Bool := none
  chunkHeader : Option String := none
  autoContext : Option Bool := none
deriving DecidableEq, Repr

/-- The two remote channels the upload pipeline uses. `post` is the
authenticated `axiosInstance.post(path, data)` of the client; `put` is the
bare global `axios.put` used for the direct transfer, which carries no
client credentials. Each returns parsed data or a thrown error. -/
structure Env where
  post : String → SignedUrlData → Except UploadError SignedUrlResponse
  put : PutRequest → Except UploadError PutResponse

/-- One remote call issued by the pipeline, for the call trace. -/
inductive Event where
  | negotiate (path : String) (data : SignedUrlData)
  | directPut (req : PutRequest)
deriving DecidableEq, Repr

/-- Recognizes a negotiation call in a trace. -/
def isNegotiateEvent : Event → Bool
  | .negotiate _ _ => true
  | .directPut _ => false

/-- Recognizes a direct-transfer call in a trace. -/
def isPutEvent : Event → Bool
  | .negotiate _ _ => false
  | .directPut _ => true

/-- The request path used by `requestSignedFileUrl`. -/
def signedUrlPath (knowledgeBaseId : String) : String :=
  "/knowledge_bases/" ++ knowledgeBaseId ++ "/documents/request_signed_file_url"

/-- `requestSignedFileUrl` (`documents.ts` lines 111–130): posts the request
body on the authenticated channel and returns the parsed response data. -/
def requestSignedFileUrl (env : Env) (knowledgeBaseId : String)
    (data : SignedUrlData) : Except UploadError SignedUrlResponse :=
  env.post (signedUrlPath knowledgeBaseId) data

/-- The signed-URL request body `uploadDocument` builds (lines 169–179). -/
def uploadSignedData (fileName md5Hash : String) (options : UploadOptions) :
    SignedUrlData :=
  { filename := fileName
    encoded_md5 := md5Hash
    method := SignedMethod.PUT
    link_to_source := options.linkToSource
    supp_id := options.suppId
    description := options.description
    is_update := options.isUpdate
    chunk_header := options.chunkHeader
    auto_context := options.autoContext }

/-- The direct transfer request `uploadDocument` issues (lines 184–189):
`axios.put(signedUrl, fileBuffer, { headers: { Content-MD5, Content-Type } })`. -/
def directPutRequest (signedUrl : String) (fileBuffer : List Nat)
    (md5Hash : String) : PutRequest :=
  { method := "PUT"
    url := signedUrl
    body := fileBuffer
    headers := [("Content-MD5", md5Hash),
                ("Content-Type", "application/octet-stream")] }

/-- The condition of `uploadDocument`'s catch block (lines 193–198):
`axios.isAxiosError(error) && error.response?.data?.error?.includes(
"already exists in knowledge base")`. -/
def isDuplicateError : UploadError → Bool
  | .axiosErr (some r) =>
    match r.data.error with
    | some s => strIncludes s "already exists in knowledge base"
    | none => false
  | .axiosErr none => false
  | .otherErr _ => false

/-- The catch block of `uploadDocument` (lines 192–207): a duplicate-content
error becomes a structured result; every other error is rethrown unchanged. -/
def classifyUploadError (e : UploadError) : Except UploadError UploadResult :=
  match e with
  | .axiosErr (some r) =>
    match r.data.error with
    | some s =>
      if strIncludes s "already exists in knowledge base" then
        .ok { success := false
              existingDocumentId := r.data.existing_document_id
              errorMessage := some s }
      else .error (.axiosErr (some r))
    | none => .error (.axiosErr (some r))
  | .axiosErr none => .error (.axiosErr none)
  | .otherErr m => .error (.otherErr m)

/-- `uploadDocument` (`documents.ts` lines 147–208): compute the digest,
negotiate a PUT grant, perform the direct transfer, classify a transfer
failure. Returns the trace of remote calls issued together with the
returned value (`.ok`) or the propagated error (`.error`). -/
def uploadDocument (env : Env) (knowledgeBaseId : String)
    (fileBuffer : List Nat) (fileName : String) (options : UploadOptions) :
    List Event × Except UploadError UploadResult :=
  let md5Hash := md5Base64 fileBuffer
  let data := uploadSignedData fileName md5Hash options
  match requestSignedFileUrl env knowledgeBaseId data with
  | .error e => ([Event.negotiate (signedUrlPath knowledgeBaseId) data],
                 .error e)
  | .ok signedUrlResponse =>
    let putReq := directPutRequest signedUrlResponse.temporary_url fileBuffer
      md5Hash
    let tr := [Event.negotiate (signedUrlPath knowledgeBaseId) data,
               Event.directPut putReq]
    match env.put putReq with
    | .ok res => (tr, .ok { success := res.status == 200
                            existingDocumentId := none
                            errorMessage := none })
    | .error e => (tr, classifyUploadError e)

/-- UTF-8 bytes of a string, as `Buffer.from(str)` produces. -/
def utf8Bytes (s : String) : List Nat :=
  s.toUTF8.toList.map (fun b => b.toNat)

/-- Default headers the client attaches to the primary authenticated
transport (`client.ts` lines 17–26): Basic credentials plus JSON headers. -/
def clientHeaders (username password : String) : List (String × String) :=
  [("Authorization",
    "Basic " ++ base64Encode (utf8Bytes (username ++ ":" ++ password))),
   ("Accept", "application/json"),
   ("Content-Type", "application/json")]

/-! ## Helper lemmas and concrete environments -/

/-- A non-duplicate error is rethrown unchanged by the catch block. -/
theorem classifyUploadError_eq_error (e : UploadError)
    (h : isDuplicateError e = false) : classifyUploadError e = .error e := by
  cases e with
  | axiosErr o =>
    cases o with
    | none => rfl
    | some r =>
      cases hr : r.data.error with
      | none => simp [classifyUploadError, hr]
      | some s =>
        have hs : strIncludes s "already exists in knowledge base" = false := by
          simpa [isDuplicateError, hr] using h
        simp [classifyUploadError, hr, hs]
  | otherErr m => rfl

/-- The catch block either produces a `success := false` structured result or
rethrows the error it was given. -/
theorem classifyUploadError_cases (e : UploadError) :
    (∃ r, classifyUploadError e = .ok r ∧ r.success = false) ∨
      classifyUploadError e = .error e := by
  cases e with
  | axiosErr o =>
    cases o with
    | none => exact Or.inr rfl
    | some r =>
      cases hr : r.data.error with
      | none => exact Or.inr (by simp [classifyUploadError, hr])
      | some s =>
        by_cases hs : strIncludes s "already exists in knowledge base" = true
        · exact Or.inl ⟨UploadResult.mk false r.data.existing_document_id
              (some s),
            by simp [classifyUploadError, hr, hs], rfl⟩
        · exact Or.inr (by
            simp [classifyUploadError, hr,
              Bool.eq_false_iff.mpr hs])
  | otherErr m => exact Or.inr rfl

/-- Environment whose negotiator grants a URL and whose transfer endpoint
answers HTTP 200. -/
def envOk : Env :=
  { post := fun _ _ => .ok { temporary_url := "https://up.example/abc" }
    put := fun _ => .ok { status := 200 } }

/-- Environment whose transfer endpoint rejects with a duplicate-content
error body carrying an existing document id. -/
def envConflict : Env :=
  { post := fun _ _ => .ok { temporary_url := "https://up.example/abc" }
    put := fun _ => .error (.axiosErr (some
      { status := 400
        data := { error := some "Document already exists in knowledge base"
                  existing_document_id := some "doc_123" } })) }

/-- Environment whose transfer endpoint fails with an unrelated 500 error. -/
def envPlainErr : Env :=
  { post := fun _ _ => .ok { temporary_url := "https://up.example/abc" }
    put := fun _ => .error (.axiosErr (some
      { status := 500
        data := { error := some "internal error"
                  existing_document_id := none } })) }

/-- Environment whose negotiator rejects with a 403 error. -/
def envNegFail : Env :=
  { post := fun _ _ => .error (.axiosErr (some
      { status := 403
        data := { error := some "forbidden"
                  existing_document_id := none } }))
    put := fun _ => .ok { status := 200 } }

/-- Environment whose transfer endpoint answers HTTP 201. -/
def env201 : Env :=
  { post := fun _ _ => .ok { temporary_url := "https://up.example/abc" }
    put := fun _ => .ok { status := 201 } }

/-! ## Claims -/

/-- C1: a failed direct upload whose HTTP error body's `error` string
contains `"already exists in knowledge base"` makes `uploadDocument` return
`{ success := false, existingDocumentId := <body's existing_document_id>,
errorMessage := <body's error string> }` as a normal (non-thrown) result. -/
theorem uploadDocument_duplicate_conflict
    (env : Env) (kb : String) (buf : List Nat) (name : String)
    (opts : UploadOptions) (u : String) (r : ErrResponse) (s : String)
    (hpost : env.post (signedUrlPath kb)
      (uploadSignedData name (md5Base64 buf) opts) = .ok { temporary_url := u })
    (hput : env.put (directPutRequest u buf (md5Base64 buf)) =
      .error (.axiosErr (some r)))
    (herr : r.data.error = some s)
    (hsub : strIncludes s "already exists in knowledge base" = true) :
    (uploadDocument env kb buf name opts).2 =
      .ok { success := false
            existingDocumentId := r.data.existing_document_id
            errorMessage := some s } := by
  simp [uploadDocument, requestSignedFileUrl, hpost, hput,
    classifyUploadError, herr, hsub]

/-- Witness for C1 on a concrete environment and buffer. -/
theorem uploadDocument_duplicate_conflict_witness :
    (uploadDocument envConflict "kb_1" [37, 80, 68, 70] "report.pdf" {}).2 =
      .ok { success := false
            existingDocumentId := some "doc_123"
            errorMessage := some "Document already exists in knowledge base" } :=
  uploadDocument_duplicate_conflict envConflict "kb_1" [37, 80, 68, 70]
    "report.pdf" {} "https://up.example/abc"
    { status := 400
      data := { error := some "Document already exists in knowledge base"
                existing_document_id := some "doc_123" } }
    "Document already exists in knowledge base" rfl rfl rfl (by decide)

/-- C2: a direct-upload error that the duplicate test does not match —
network failures (no response), bodies without an `error` field, non-axios
errors, or `error` strings lacking the substring — is rethrown to the
caller unchanged, neither swallowed nor turned into a conflict result. -/
theorem uploadDocument_rethrows_nonduplicate
    (env : Env) (kb : String) (buf : List Nat) (name : String)
    (opts : UploadOptions) (u : String) (e : UploadError)
    (hpost : env.post (signedUrlPath kb)
      (uploadSignedData name (md5Base64 buf) opts) = .ok { temporary_url := u })
    (hput : env.put (directPutRequest u buf (md5Base64 buf)) = .error e)
    (hdup : isDuplicateError e = false) :
    (uploadDocument env kb buf name opts).2 = .error e := by
  simp [uploadDocument, requestSignedFileUrl, hpost, hput,
    classifyUploadError_eq_error e hdup]

/-- Witness for C2: a 500 response with body `{ error: "internal error" }`
propagates unchanged. -/
theorem uploadDocument_rethrows_nonduplicate_witness :
    (uploadDocument envPlainErr "kb_1" [37, 80, 68, 70] "report.pdf" {}).2 =
      .error (.axiosErr (some
        { status := 500
          data := { error := some "internal error"
                    existing_document_id := none } })) :=
  uploadDocument_rethrows_nonduplicate envPlainErr "kb_1" [37, 80, 68, 70]
    "report.pdf" {} "https://up.example/abc"
    (.axiosErr (some
      { status := 500
        data := { error := some "internal error"
                  existing_document_id := none } }))
    rfl rfl (by decide)

/-- C3: when the direct PUT to the signed URL answers HTTP 200,
`uploadDocument` returns `{ success := true }` with `existingDocumentId`
and `errorMessage` both absent. -/
theorem uploadDocument_success_200
    (env : Env) (kb : String) (buf : List Nat) (name : String)
    (opts : UploadOptions) (u : String)
    (hpost : env.post (signedUrlPath kb)
      (uploadSignedData name (md5Base64 buf) opts) = .ok { temporary_url := u })
    (hput : env.put (directPutRequest u buf (md5Base64 buf)) =
      .ok { status := 200 }) :
    (uploadDocument env kb buf name opts).2 =
      .ok { success := true
            existingDocumentId := none
            errorMessage := none } := by
  simp [uploadDocument, requestSignedFileUrl, hpost, hput]

/-- Witness for C3 on a concrete environment. -/
theorem uploadDocument_success_200_witness :
    (uploadDocument envOk "kb_1" [37, 80, 68, 70] "report.pdf" {}).2 =
      .ok { success := true
            existingDocumentId := none
            errorMessage := none } :=
  uploadDocument_success_200 envOk "kb_1" [37, 80, 68, 70] "report.pdf" {}
    "https://up.example/abc" rfl rfl

/-- C4: when the signed-URL negotiation fails, its error is the returned
outcome, the trace holds only the negotiation call, and the result does not
depend on the direct-transfer channel at all — the direct PUT is never
attempted. -/
theorem uploadDocument_negotiation_failure
    (env : Env) (kb : String) (buf : List Nat) (name : String)
    (opts : UploadOptions) (e : UploadError)
    (hpost : env.post (signedUrlPath kb)
      (uploadSignedData name (md5Base64 buf) opts) = .error e) :
    uploadDocument env kb buf name opts =
      ([Event.negotiate (signedUrlPath kb)
          (uploadSignedData name (md5Base64 buf) opts)], .error e)
    ∧ ∀ f : PutRequest → Except UploadError PutResponse,
        uploadDocument { post := env.post, put := f } kb buf name opts =
          uploadDocument env kb buf name opts := by
  constructor
  · simp [uploadDocument, requestSignedFileUrl, hpost]
  · intro f
    simp [uploadDocument, requestSignedFileUrl, hpost]

/-- Witness for C4: a 403 from the negotiator propagates and leaves a
negotiation-only trace. -/
theorem uploadDocument_negotiation_failure_witness :
    uploadDocument envNegFail "kb_1" [1, 2] "a.txt" {} =
      ([Event.negotiate (signedUrlPath "kb_1")
          (uploadSignedData "a.txt" (md5Base64 [1, 2]) {})],
       .error (.axiosErr (some
         { status := 403
           data := { error := some "forbidden"
                     existing_document_id := none } }))) :=
  (uploadDocument_negotiation_failure envNegFail "kb_1" [1, 2] "a.txt" {}
    (.axiosErr (some
      { status := 403
        data := { error := some "forbidden"
                  existing_document_id := none } }))
    rfl).1

/-- C5: the digest is the base64 encoding of the MD5 hash of the buffer, and
that exact value is both the `encoded_md5` of the signed-URL request (with
the given file name) and the `Content-MD5` header of the PUT to the exact
granted temporary URL. -/
theorem uploadDocument_digest_flow
    (env : Env) (kb : String) (buf : List Nat) (name : String)
    (opts : UploadOptions) (u : String)
    (hpost : env.post (signedUrlPath kb)
      (uploadSignedData name (base64Encode (md5Bytes buf)) opts) =
        .ok { temporary_url := u }) :
    (uploadDocument env kb buf name opts).1 =
      [Event.negotiate (signedUrlPath kb)
         (uploadSignedData name (base64Encode (md5Bytes buf)) opts),
       Event.directPut (directPutRequest u buf (base64Encode (md5Bytes buf)))]
    ∧ (uploadSignedData name (base64Encode (md5Bytes buf)) opts).encoded_md5 =
        base64Encode (md5Bytes buf)
    ∧ (uploadSignedData name (base64Encode (md5Bytes buf)) opts).filename =
        name
    ∧ (directPutRequest u buf (base64Encode (md5Bytes buf))).url = u
    ∧ (directPutRequest u buf (base64Encode (md5Bytes buf))).headers =
        [("Content-MD5", base64Encode (md5Bytes buf)),
         ("Content-Type", "application/octet-stream")] := by
  refine ⟨?_, rfl, rfl, rfl, rfl⟩
  cases hput : env.put (directPutRequest u buf (base64Encode (md5Bytes buf)))
    <;> simp [uploadDocument, requestSignedFileUrl, md5Base64, hpost, hput]

/-- Witness for C5 with the bytes of `"%PDF-1.4"`. -/
theorem uploadDocument_digest_flow_witness :
    (uploadDocument envOk "kb_1" [37, 80, 68, 70, 45, 49, 46, 52]
        "report.pdf" {}).1 =
      [Event.negotiate (signedUrlPath "kb_1")
         (uploadSignedData "report.pdf"
           (base64Encode (md5Bytes [37, 80, 68, 70, 45, 49, 46, 52])) {}),
       Event.directPut (directPutRequest "https://up.example/abc"
         [37, 80, 68, 70, 45, 49, 46, 52]
         (base64Encode (md5Bytes [37, 80, 68, 70, 45, 49, 46, 52])))] :=
  (uploadDocument_digest_flow envOk "kb_1" [37, 80, 68, 70, 45, 49, 46, 52]
    "report.pdf" {} "https://up.example/abc" rfl).1

/-- The digest carried by the first remote call of an upload trace. -/
def sentDigest (out : List Event × Except UploadError UploadResult) :
    Option String :=
  match out.1 with
  | Event.negotiate _ d :: _ => some d.encoded_md5
  | _ => none

/-- Every upload run opens with a negotiation call carrying the MD5-base64
digest of the buffer. -/
theorem uploadDocument_sentDigest (env : Env) (kb : String) (buf : List Nat)
    (n : String) (o : UploadOptions) :
    sentDigest (uploadDocument env kb buf n o) = some (md5Base64 buf) := by
  rcases h : requestSignedFileUrl env kb (uploadSignedData n (md5Base64 buf) o)
    with e | r
  · simp only [uploadDocument, h]
    simp [sentDigest, uploadSignedData]
  · rcases hput : env.put (directPutRequest r.temporary_url buf
        (md5Base64 buf)) with e2 | res <;>
    · simp only [uploadDocument, h, hput]
      simp [sentDigest, uploadSignedData]

/-- C6: the digest computation is deterministic — any two uploads of the
same byte buffer (under any environments, knowledge bases, file names and
options, the empty buffer included) send the identical digest value. -/
theorem uploadDocument_digest_deterministic
    (env1 env2 : Env) (kb1 kb2 : String) (buf : List Nat)
    (n1 n2 : String) (o1 o2 : UploadOptions) :
    sentDigest (uploadDocument env1 kb1 buf n1 o1) =
      sentDigest (uploadDocument env2 kb2 buf n2 o2) := by
  rw [uploadDocument_sentDigest, uploadDocument_sentDigest]

/-- C7: the direct transfer is a PUT to the granted temporary URL with
exactly the headers `Content-MD5: <digest>` and
`Content-Type: application/octet-stream`, the raw bytes as body, and no
`Authorization` header — unlike the primary transport, whose default headers
do carry `Authorization` credentials. -/
theorem uploadDocument_direct_put_uncredentialed
    (env : Env) (kb : String) (buf : List Nat) (name : String)
    (opts : UploadOptions) (u user pass : String)
    (hpost : env.post (signedUrlPath kb)
      (uploadSignedData name (md5Base64 buf) opts) =
        .ok { temporary_url := u }) :
    Event.directPut (directPutRequest u buf (md5Base64 buf)) ∈
      (uploadDocument env kb buf name opts).1
    ∧ (directPutRequest u buf (md5Base64 buf)).method = "PUT"
    ∧ (directPutRequest u buf (md5Base64 buf)).url = u
    ∧ (directPutRequest u buf (md5Base64 buf)).body = buf
    ∧ (directPutRequest u buf (md5Base64 buf)).headers =
        [("Content-MD5", md5Base64 buf),
         ("Content-Type", "application/octet-stream")]
    ∧ "Authorization" ∉
        ((directPutRequest u buf (md5Base64 buf)).headers).map Prod.fst
    ∧ "Authorization" ∈ (clientHeaders user pass).map Prod.fst := by
  have hnoauth : "Authorization" ∉
      ((directPutRequest u buf (md5Base64 buf)).headers).map Prod.fst := by
    have hmap : ((directPutRequest u buf (md5Base64 buf)).headers).map
        Prod.fst = ["Content-MD5", "Content-Type"] := rfl
    rw [hmap]
    decide
  refine ⟨?_, rfl, rfl, rfl, rfl, hnoauth, by simp [clientHeaders]⟩
  cases hput : env.put (directPutRequest u buf (md5Base64 buf)) <;>
    simp [uploadDocument, requestSignedFileUrl, hpost, hput]

/-- Witness for C7 on a concrete environment. -/
theorem uploadDocument_direct_put_uncredentialed_witness :
    Event.directPut (directPutRequest "https://up.example/abc" [1, 2, 3]
        (md5Base64 [1, 2, 3])) ∈
      (uploadDocument envOk "kb_1" [1, 2, 3] "a.bin" {}).1
    ∧ "Authorization" ∉
        ((directPutRequest "https://up.example/abc" [1, 2, 3]
          (md5Base64 [1, 2, 3])).headers).map Prod.fst :=
  ⟨(uploadDocument_direct_put_uncredentialed envOk "kb_1" [1, 2, 3] "a.bin"
      {} "https://up.example/abc" "user" "pass" rfl).1,
   (uploadDocument_direct_put_uncredentialed envOk "kb_1" [1, 2, 3] "a.bin"
      {} "https://up.example/abc" "user" "pass" rfl).2.2.2.2.2.1⟩

/-- C8: every invocation makes a single pass — the trace is the negotiation
alone or the negotiation followed by one direct PUT (never more, never
reordered), and the result is exactly one of: a `success := true` record, a
`success := false` record, or a propagated error. -/
theorem uploadDocument_single_pass
    (env : Env) (kb : String) (buf : List Nat) (name : String)
    (opts : UploadOptions) :
    ∃ tr res, uploadDocument env kb buf name opts = (tr, res)
    ∧ (tr = [Event.negotiate (signedUrlPath kb)
               (uploadSignedData name (md5Base64 buf) opts)]
       ∨ ∃ u, tr = [Event.negotiate (signedUrlPath kb)
                      (uploadSignedData name (md5Base64 buf) opts),
                    Event.directPut (directPutRequest u buf (md5Base64 buf))])
    ∧ tr.countP isNegotiateEvent ≤ 1
    ∧ tr.countP isPutEvent ≤ 1
    ∧ ((∃ rr, res = .ok rr ∧ rr.success = true)
       ∨ (∃ rr, res = .ok rr ∧ rr.success = false)
       ∨ (∃ e, res = .error e)) := by
  refine ⟨(uploadDocument env kb buf name opts).1,
    (uploadDocument env kb buf name opts).2, rfl, ?_, ?_, ?_, ?_⟩
  · rcases h : requestSignedFileUrl env kb
        (uploadSignedData name (md5Base64 buf) opts) with e | r
    · exact Or.inl (by simp only [uploadDocument, h])
    · refine Or.inr ⟨r.temporary_url, ?_⟩
      cases hput : env.put (directPutRequest r.temporary_url buf
          (md5Base64 buf)) <;> simp only [uploadDocument, h, hput]
  · rcases h : requestSignedFileUrl env kb
        (uploadSignedData name (md5Base64 buf) opts) with e | r
    · simp only [uploadDocument, h]
      simp [List.countP_cons, isNegotiateEvent]
    · cases hput : env.put (directPutRequest r.temporary_url buf
          (md5Base64 buf)) <;>
      · simp only [uploadDocument, h, hput]
        simp [List.countP_cons, isNegotiateEvent, isPutEvent]
  · rcases h : requestSignedFileUrl env kb
        (uploadSignedData name (md5Base64 buf) opts) with e | r
    · simp only [uploadDocument, h]
      simp [List.countP_cons, isPutEvent]
    · cases hput : env.put (directPutRequest r.temporary_url buf
          (md5Base64 buf)) <;>
      · simp only [uploadDocument, h, hput]
        simp [List.countP_cons, isNegotiateEvent, isPutEvent]
  · rcases h : requestSignedFileUrl env kb
        (uploadSignedData name (md5Base64 buf) opts) with e | r
    · exact Or.inr (Or.inr ⟨e, by simp only [uploadDocument, h]⟩)
    · rcases hput : env.put (directPutRequest r.temporary_url buf
          (md5Base64 buf)) with e2 | res
      · rcases classifyUploadError_cases e2 with ⟨rr, hc, hsf⟩ | hc
        · refine Or.inr (Or.inl ⟨rr, ?_, hsf⟩)
          simp only [uploadDocument, h, hput]
          exact hc
        · refine Or.inr (Or.inr ⟨e2, ?_⟩)
          simp only [uploadDocument, h, hput]
          exact hc
      · cases hst : res.status == 200
        · refine Or.inr (Or.inl ⟨UploadResult.mk false none none, ?_, rfl⟩)
          simp only [uploadDocument, h, hput]
          simp [hst]
        · refine Or.inl ⟨UploadResult.mk true none none, ?_, rfl⟩
          simp only [uploadDocument, h, hput]
          simp [hst]

/-- C9: the bytes the pipeline handles are exactly the caller's buffer —
every direct PUT in the trace carries `fileBuffer` itself as its body, and
every negotiation carries the digest computed over `fileBuffer` itself; the
embedding's buffers are immutable values, so the input is never mutated. -/
theorem uploadDocument_buffer_preserved
    (env : Env) (kb : String) (buf : List Nat) (name : String)
    (opts : UploadOptions) (ev : Event)
    (hev : ev ∈ (uploadDocument env kb buf name opts).1) :
    (match ev with
     | Event.negotiate _ d => d.encoded_md5 = md5Base64 buf
     | Event.directPut req => req.body = buf) := by
  rcases h : requestSignedFileUrl env kb
      (uploadSignedData name (md5Base64 buf) opts) with e | r
  · simp only [uploadDocument, h] at hev
    simp at hev
    subst hev
    simp [uploadSignedData]
  · rcases hput : env.put (directPutRequest r.temporary_url buf
        (md5Base64 buf)) with e2 | res <;>
    · simp only [uploadDocument, h, hput] at hev
      simp at hev
      rcases hev with hev | hev <;> subst hev <;>
        simp [uploadSignedData, directPutRequest]

/-- Witness for C9: the PUT issued on a concrete run carries the caller's
bytes unchanged. -/
theorem uploadDocument_buffer_preserved_witness :
    (directPutRequest "https://up.example/abc" [10, 20]
      (md5Base64 [10, 20])).body = [10, 20] :=
  uploadDocument_buffer_preserved envOk "kb_1" [10, 20] "a.bin" {}
    (Event.directPut (directPutRequest "https://up.example/abc" [10, 20]
      (md5Base64 [10, 20])))
    (by simp [uploadDocument, requestSignedFileUrl, envOk])

/-- C10: a direct PUT answered with a 2xx status other than 200 (which the
transfer client accepts as a response, not an error) makes `uploadDocument`
return `{ success := false }` with `existingDocumentId` and `errorMessage`
both absent — not a thrown error and not a conflict record. -/
theorem uploadDocument_2xx_not_200
    (env : Env) (kb : String) (buf : List Nat) (name : String)
    (opts : UploadOptions) (u : String) (s : Nat)
    (hpost : env.post (signedUrlPath kb)
      (uploadSignedData name (md5Base64 buf) opts) = .ok { temporary_url := u })
    (hput : env.put (directPutRequest u buf (md5Base64 buf)) =
      .ok { status := s })
    (_h2a : 200 ≤ s) (_h2b : s < 300) (hne : s ≠ 200) :
    (uploadDocument env kb buf name opts).2 =
      .ok { success := false
            existingDocumentId := none
            errorMessage := none } := by
  have hbeq : (s == 200) = false := beq_eq_false_iff_ne.mpr hne
  simp [uploadDocument, requestSignedFileUrl, hpost, hput, hbeq]

/-- Witness for C10: a 201 from the transfer endpoint yields a bare
`success := false` result. -/
theorem uploadDocument_2xx_not_200_witness :
    (uploadDocument env201 "kb_1" [1, 2, 3] "a.bin" {}).2 =
      .ok { success := false
            existingDocumentId := none
            errorMessage := none } :=
  uploadDocument_2xx_not_200 env201 "kb_1" [1, 2, 3] "a.bin" {}
    "https://up.example/abc" 201 rfl rfl (by decide) (by decide) (by decide)
